import Mathlib

/-!
Verification of the Browser Form (`weather/frontend/src/App.tsx`) of the
WEATHER repository.  The React component is shallowly embedded: its pure
helpers (`coordsList`, URL construction, error-message selection, cell
rendering) become Lean functions, and its `useState` hooks become an
explicit `AppState` record acted on by an event step function.  JavaScript
numbers appearing in `Reading` are modelled as rationals (`Rat`); nullable
fields (`T | null`) become `Option T`; percent-encoding performed by
`URLSearchParams.toString()` is abstracted away, so query parameters are
kept as ordered key/value pairs.
-/

namespace WeatherApp

/-- The `Reading` record type declared at the top of `App.tsx`.  Every
field nullable in the TypeScript type is an `Option` here. -/
structure Reading where
  provider : String
  latitude : Rat
  longitude : Rat
  observed_at_unix : Option Int
  temperature_c : Option Rat
  temperature_f : Option Rat
  humidity_pct : Option Rat
  pressure_hpa : Option Rat
  wind_speed_ms : Option Rat
  wind_direction_deg : Option Rat
  condition_code : Option String
  condition_text : Option String
deriving Repr, DecidableEq

/-- Mirrors `BACKEND_BASE = (import.meta as any).env.VITE_BACKEND_BASE || 'http://127.0.0.1:8010'`.
The build-time environment value is `Option String` (absent = `none`);
JavaScript `||` treats the empty string as falsy. -/
def BACKEND_BASE (envBase : Option String) : String :=
  match envBase with
  | some s => if s.isEmpty then "http://127.0.0.1:8010" else s
  | none => "http://127.0.0.1:8010"

/-- A character on which the regex `/\n|\r/` splits. -/
def isLineSep (c : Char) : Bool :=
  c == '\n' || c == '\r'

/-- JavaScript `String.prototype.split` on the separator characters of
`/\n|\r/`, on the character list: every separator occurrence cuts, and
adjacent separators yield empty pieces (as the regex does). -/
def splitChars (cs : List Char) : List (List Char) :=
  match cs with
  | [] => [[]]
  | c :: rest =>
    if isLineSep c then [] :: splitChars rest
    else
      match splitChars rest with
      | l :: ls => (c :: l) :: ls
      | [] => [[c]]

/-- Drop leading whitespace characters. -/
def dropLeadingWs (cs : List Char) : List Char :=
  match cs with
  | [] => []
  | c :: rest => if c.isWhitespace then dropLeadingWs rest else c :: rest

/-- JavaScript `String.prototype.trim` on the character list: whitespace
removed from both ends. -/
def trimChars (cs : List Char) : List Char :=
  ((dropLeadingWs ((dropLeadingWs cs).reverse)).reverse)

/-- The `coordsList` memo: `coordsText.split(/\n|\r/).map(s => s.trim()).filter(Boolean)`
(the `Boolean` filter keeps exactly the non-empty strings). -/
def coordsListOf (coordsText : String) : List String :=
  (((splitChars coordsText.toList).map (fun l => String.mk (trimChars l))).filter
    (fun s => !s.isEmpty))

/-- The `URLSearchParams` built in `fetchWeather`: `params.set('provider', provider)`
followed by `params.append('coords', c)` for each element of `coordsList`,
kept as the ordered list of key/value pairs. -/
def buildParams (provider : String) (coords : List String) : List (String × String) :=
  ("provider", provider) :: coords.map (fun c => ("coords", c))

/-- Models `params.toString()` with percent-encoding abstracted away: the
pairs joined as `k=v` with `&`. -/
def queryString (ps : List (String × String)) : String :=
  String.intercalate "&" (ps.map (fun p => p.1 ++ "=" ++ p.2))

/-- The URL built in `fetchWeather`:
`` `${BACKEND_BASE}/api/weather?${params.toString()}` ``. -/
def requestUrl (envBase : Option String) (provider : String) (coords : List String) : String :=
  BACKEND_BASE envBase ++ ("/api/weather?" ++ queryString (buildParams provider coords))

/-- JavaScript `x || y` on an optional string: `undefined`/`null` and the
empty string are falsy. -/
def jsOr (x : Option String) (y : String) : String :=
  match x with
  | some s => if s.isEmpty then y else s
  | none => y

/-- The catch branch of `fetchWeather`:
`e?.response?.data?.error || e?.message || 'Request failed'`, with
`respError` the endpoint JSON error field and `message` the transport-level
failure message (each possibly absent). -/
def errorMessage (respError message : Option String) : String :=
  jsOr respError (jsOr message "Request failed")

/-- The inline error banner: `{error && <div ...>Error: {error}</div>}` —
rendered only when `error` is truthy, with the text `Error: ` prefixed. -/
def errorBanner (error : Option String) : Option String :=
  match error with
  | some s => if s.isEmpty then none else some ("Error: " ++ s)
  | none => none

/-- One table cell: `{r.field ?? ''}` — nullish coalescing renders `null`
as the empty string and a number as its decimal text. -/
def cell (v : Option Rat) : String :=
  match v with
  | none => ""
  | some x => toString x

/-- One table body row, in the column order of the JSX:
`temperature_c`, `humidity_pct`, `pressure_hpa`, `wind_speed_ms`,
`wind_direction_deg`. -/
def renderRow (r : Reading) : List String :=
  [cell r.temperature_c, cell r.humidity_pct, cell r.pressure_hpa,
   cell r.wind_speed_ms, cell r.wind_direction_deg]

/-- The table body: `readings.map((r, idx) => <tr>...;</tr>)`. -/
def renderRows (rs : List Reading) : List (List String) :=
  rs.map renderRow

/-- The header cells of the rendered table, from the JSX `<thead>`. -/
def renderedTableHeaders : List String :=
  ["T (°C)", "Hum (%)", "Press (hPa)", "Wind (m/s)", "Dir (°)"]

/-- The `Reading` fields the JSX accesses in each `<td>`, in column order. -/
def renderedColumnFields : List String :=
  ["temperature_c", "humidity_pct", "pressure_hpa", "wind_speed_ms", "wind_direction_deg"]

/-- Modelled from the spec (for comparison with `renderedColumnFields`):
the "normalized scalar fields" the CSV section of the spec lists, which
claim C1 asserts are the table columns. -/
def claimedScalarFields : List String :=
  ["provider", "coordinate", "timestamp", "temperature_c", "humidity_pct",
   "pressure_hpa", "wind_speed_ms", "wind_direction_deg", "condition_code",
   "condition_text"]

/-- The interactive controls present in the JSX: the coordinates textarea
and the fetch button.  A provider `<select>` element is absent; the JSX
carries the comment "Provider selection hidden as requested; defaulting to
Open-Meteo". -/
def renderedFormControls : List String :=
  ["coordsTextarea", "fetchButton"]

/-- The component state held in `useState` hooks. -/
structure AppState where
  provider : String
  coordsText : String
  readings : Option (List Reading)
  loading : Bool
  error : Option String
deriving Repr

/-- The initial hook values of `App`. -/
def initialState : AppState :=
  { provider := "openmeteo"
  , coordsText := "37.7749,-122.4194\n40.7128,-74.0060"
  , readings := none
  , loading := false
  , error := none }

/-- Outcome of the awaited `axios.get`: the resolved data, or a rejection
carrying the endpoint JSON error field and the transport message. -/
inductive FetchResult where
  | success (data : List Reading)
  | failure (respError message : Option String)
deriving Repr

/-- The opening statements of `fetchWeather`: `setLoading(true)`,
`setError(null)`, `setReadings(null)`. -/
def startFetch (s : AppState) : AppState :=
  { s with loading := true, error := none, readings := none }

/-- Settling of `fetchWeather`: the `try` tail sets `readings`, the
`catch` sets `error` via `errorMessage`, and `finally` sets
`loading` to `false` in both cases. -/
def settleFetch (s : AppState) (r : FetchResult) : AppState :=
  match r with
  | .success data => { s with readings := some data, loading := false }
  | .failure respError message =>
      { s with error := some (errorMessage respError message), loading := false }

/-- The fetch button is `<button onClick={fetchWeather} disabled={loading}>`. -/
def buttonDisabled (s : AppState) : Bool :=
  s.loading

/-- User-visible events of the component: editing the textarea
(`onChange` runs `setCoordsText`), clicking the fetch button, and the
pending fetch settling. -/
inductive Event where
  | editCoords (text : String)
  | clickFetch
  | settle (r : FetchResult)

/-- One step of the component: a click on a disabled button fires no
handler, so `clickFetch` while `loading` leaves the state unchanged. -/
def step (s : AppState) (e : Event) : AppState :=
  match e with
  | .editCoords t => { s with coordsText := t }
  | .clickFetch => if s.loading then s else startFetch s
  | .settle r => settleFetch s r

/-- The state after a sequence of events from the initial render. -/
def runEvents (events : List Event) : AppState :=
  events.foldl step initialState

/-- The query parameters `fetchWeather` sends from state `s`. -/
def paramsOfFetch (s : AppState) : List (String × String) :=
  buildParams s.provider (coordsListOf s.coordsText)

/-- The URL `fetchWeather` requests from state `s`. -/
def fetchRequest (envBase : Option String) (s : AppState) : String :=
  requestUrl envBase s.provider (coordsListOf s.coordsText)

/-- The HTTP requests one invocation of `fetchWeather` issues: a single
GET of the built URL. -/
def requestsOfFetch (envBase : Option String) (s : AppState) : List String :=
  [fetchRequest envBase s]

/-- A concrete reading whose nullable fields are all absent, as a provider
reporting nothing would produce. -/
def nullReading : Reading :=
  { provider := "openmeteo"
  , latitude := 0
  , longitude := 0
  , observed_at_unix := none
  , temperature_c := none
  , temperature_f := none
  , humidity_pct := none
  , pressure_hpa := none
  , wind_speed_ms := none
  , wind_direction_deg := none
  , condition_code := none
  , condition_text := none }

theorem step_preserves_provider (s : AppState) (e : Event) :
    (step s e).provider = s.provider := by
  cases e with
  | editCoords t => rfl
  | clickFetch =>
      show (if s.loading then s else startFetch s).provider = s.provider
      split <;> rfl
  | settle r => cases r <;> rfl

theorem foldl_step_provider (evs : List Event) (s : AppState) :
    (evs.foldl step s).provider = s.provider := by
  induction evs generalizing s with
  | nil => rfl
  | cons e t ih => rw [List.foldl_cons, ih (step s e), step_preserves_provider]

/-- C1 counterexample: the claim says the table columns are the ten
normalized scalar fields, but the rendered table has only five columns;
`provider` (among others) is claimed yet absent. -/
theorem c1_counterexample :
    claimedScalarFields.contains "provider" = true ∧
    renderedColumnFields.contains "provider" = false ∧
    renderedColumnFields.length = 5 ∧
    claimedScalarFields.length = 10 ∧
    (renderedColumnFields == claimedScalarFields) = false := by
  decide

/-- C1 (amended): for every successful response the Browser Form renders
one table row per reading, and the columns are exactly the five fields
`temperature_c`, `humidity_pct`, `pressure_hpa`, `wind_speed_ms`,
`wind_direction_deg`, in that order. -/
theorem c1_table_columns (rs : List Reading) (r : Reading) :
    (renderRows rs).length = rs.length ∧
    renderedTableHeaders.length = renderedColumnFields.length ∧
    (renderRow r).length = renderedColumnFields.length ∧
    (renderRow r)[0]? = some (cell r.temperature_c) ∧
    (renderRow r)[1]? = some (cell r.humidity_pct) ∧
    (renderRow r)[2]? = some (cell r.pressure_hpa) ∧
    (renderRow r)[3]? = some (cell r.wind_speed_ms) ∧
    (renderRow r)[4]? = some (cell r.wind_direction_deg) := by
  refine ⟨by simp [renderRows], by decide, by simp [renderRow, renderedColumnFields],
    rfl, rfl, rfl, rfl, rfl⟩

/-- C2 counterexample: the malformed coordinate string `"not,a,coord"`
survives the form's `coordsList` untouched and is included as a `coords`
parameter of the endpoint request — the form does send it. -/
theorem c2_counterexample :
    coordsListOf "not,a,coord" = ["not,a,coord"] ∧
    (paramsOfFetch { initialState with coordsText := "not,a,coord" }).contains
      ("coords", "not,a,coord") = true := by
  decide

/-- C2 (amended): the Browser Form performs no coordinate well-formedness
validation; every non-empty trimmed input line, valid or not, is sent
verbatim as a `coords` parameter of the endpoint request, and rejection of
invalid coordinates is left to the HTTP Endpoint. -/
theorem c2_sent_verbatim (text c : String) (h : c ∈ coordsListOf text) :
    ("coords", c) ∈ buildParams "openmeteo" (coordsListOf text) :=
  List.mem_cons_of_mem _ (List.mem_map_of_mem _ h)

theorem c2_sent_verbatim_witness :
    ("coords", "not,a,coord") ∈ buildParams "openmeteo" (coordsListOf "not,a,coord") :=
  c2_sent_verbatim "not,a,coord" "not,a,coord" (by decide)

/-- C3: each fetch issues exactly one GET, its URL is the backend base
followed by `/api/weather?` and the serialized parameters, the first
parameter is the selected provider, and parameter `i+1` is `coords` paired
verbatim with the `i`-th non-empty trimmed input line — same order, same
text. -/
theorem c3_single_request (envBase : Option String) (s : AppState) (i : Nat) :
    (requestsOfFetch envBase s).length = 1 ∧
    fetchRequest envBase s =
      BACKEND_BASE envBase ++ ("/api/weather?" ++ queryString (paramsOfFetch s)) ∧
    (paramsOfFetch s)[0]? = some ("provider", s.provider) ∧
    (paramsOfFetch s)[i + 1]? =
      ((coordsListOf s.coordsText)[i]?).map (fun c => ("coords", c)) := by
  refine ⟨rfl, rfl, ?_, ?_⟩ <;> simp [paramsOfFetch, buildParams]

/-- C4: when the endpoint's JSON error object carries a non-empty error
text the form displays that text; otherwise it displays the
transport-level failure message (or the fixed fallback when even that is
absent), and the non-empty error is rendered inline prefixed `Error: `. -/
theorem c4_error_display (t m : String) (ht : t.isEmpty = false) (hm : m.isEmpty = false) :
    errorMessage (some t) (some m) = t ∧
    errorMessage none (some m) = m ∧
    errorMessage none none = "Request failed" ∧
    errorBanner (some t) = some ("Error: " ++ t) := by
  refine ⟨?_, ?_, rfl, ?_⟩
  · simp [errorMessage, jsOr, ht]
  · simp [errorMessage, jsOr, hm]
  · simp [errorBanner, ht]

theorem c4_error_display_witness :
    errorMessage (some "upstream 404") (some "Network Error") = "upstream 404" ∧
    errorMessage none (some "Network Error") = "Network Error" ∧
    errorMessage none none = "Request failed" ∧
    errorBanner (some "upstream 404") = some ("Error: " ++ "upstream 404") :=
  c4_error_display "upstream 404" "Network Error" (by decide) (by decide)

/-- C5: no provider `<select>` control is rendered, the initial provider
state is `"openmeteo"`, no event ever changes it, and hence every request
built from any reachable state carries `provider=openmeteo`. -/
theorem c5_fixed_provider (events : List Event) :
    renderedFormControls.contains "providerSelect" = false ∧
    initialState.provider = "openmeteo" ∧
    (runEvents events).provider = "openmeteo" ∧
    (paramsOfFetch (runEvents events))[0]? = some ("provider", "openmeteo") := by
  have h : (runEvents events).provider = "openmeteo" :=
    foldl_step_provider events initialState
  exact ⟨by decide, rfl, h, by simp [paramsOfFetch, buildParams, h]⟩

/-- C6: when the `VITE_BACKEND_BASE` build-time value is present and
non-empty it is the backend base used, and every request URL the form
issues begins with the backend base. -/
theorem c6_backend_base (envBase : Option String) (s : AppState) :
    (∀ b, envBase = some b → b.isEmpty = false → BACKEND_BASE envBase = b) ∧
    ∃ rest, fetchRequest envBase s = BACKEND_BASE envBase ++ rest := by
  constructor
  · intro b hb hne
    subst hb
    simp [BACKEND_BASE, hne]
  · exact ⟨"/api/weather?" ++ queryString (paramsOfFetch s), rfl⟩

theorem c6_backend_base_witness :
    BACKEND_BASE (some "https://api.example.com") = "https://api.example.com" ∧
    ∃ rest, fetchRequest (some "https://api.example.com") initialState =
      "https://api.example.com" ++ rest := by
  obtain ⟨h1, h2⟩ := c6_backend_base (some "https://api.example.com") initialState
  have hb := h1 "https://api.example.com" rfl (by decide)
  exact ⟨hb, hb ▸ h2⟩

/-- C7: the rendered table body has one row per reading and row `i` is
exactly the rendering of reading `i` — the displayed order is the order of
the readings array returned by the endpoint. -/
theorem c7_row_order (rs : List Reading) (i : Nat) :
    (renderRows rs).length = rs.length ∧
    (renderRows rs)[i]? = (rs[i]?).map renderRow := by
  constructor
  · simp [renderRows]
  · simp [renderRows]

/-- C8: every displayed field that is `null` is rendered as an empty table
cell (the empty string), via the `?? ''` coalescing in each `<td>`. -/
theorem c8_null_cells (r : Reading) :
    (r.temperature_c = none → (renderRow r)[0]? = some "") ∧
    (r.humidity_pct = none → (renderRow r)[1]? = some "") ∧
    (r.pressure_hpa = none → (renderRow r)[2]? = some "") ∧
    (r.wind_speed_ms = none → (renderRow r)[3]? = some "") ∧
    (r.wind_direction_deg = none → (renderRow r)[4]? = some "") := by
  refine ⟨?_, ?_, ?_, ?_, ?_⟩ <;> intro h <;> simp [renderRow, cell, h]

theorem c8_null_cells_witness :
    (renderRow nullReading)[0]? = some "" ∧
    (renderRow nullReading)[1]? = some "" ∧
    (renderRow nullReading)[2]? = some "" ∧
    (renderRow nullReading)[3]? = some "" ∧
    (renderRow nullReading)[4]? = some "" := by
  obtain ⟨h1, h2, h3, h4, h5⟩ := c8_null_cells nullReading
  exact ⟨h1 rfl, h2 rfl, h3 rfl, h4 rfl, h5 rfl⟩

/-- C9: every fetch starts by clearing both `error` and `readings`, and a
settled fetch sets at most one of them, so after any completed fetch the
error message and the readings table are never both present. -/
theorem c9_error_readings_exclusive (s : AppState) (r : FetchResult) :
    (startFetch s).error = none ∧
    (startFetch s).readings = none ∧
    ((settleFetch (startFetch s) r).readings.isSome &&
      (settleFetch (startFetch s) r).error.isSome) = false := by
  refine ⟨rfl, rfl, ?_⟩
  cases r <;> rfl

/-- C10: the fetch button is disabled exactly while `loading` is true, a
click while loading starts no new fetch (so at most one button-initiated
request is outstanding), and settling — success or failure — resets
`loading` to false. -/
theorem c10_button_loading (s : AppState) (r : FetchResult) :
    buttonDisabled s = s.loading ∧
    (s.loading = true → step s Event.clickFetch = s) ∧
    (settleFetch s r).loading = false := by
  refine ⟨rfl, ?_, ?_⟩
  · intro h
    simp [step, h]
  · cases r <;> rfl

theorem c10_button_loading_witness :
    buttonDisabled (startFetch initialState) = true ∧
    step (startFetch initialState) Event.clickFetch = startFetch initialState ∧
    (settleFetch (startFetch initialState) (FetchResult.failure none none)).loading = false := by
  obtain ⟨h1, h2, h3⟩ :=
    c10_button_loading (startFetch initialState) (FetchResult.failure none none)
  exact ⟨h1, h2 rfl, h3⟩

end WeatherApp
